import Mathlib

/-!
Shallow embedding of the websocket connection core
(`src/websockets/connection.go` of Paramo2508/game-server).

The Go code manages one duplex websocket connection: a `Connection`
struct holding the underlying transport, a buffered outbound channel
`send` (capacity 256), a one-shot `closed` channel, and a
`sync.Once`-guarded `Close`.  Two pump functions (`readPump`,
`writePump`) move frames in and out.

We model:
 - the facade state (`Connection`): outbound queue contents, whether the
   `send` channel has been closed, whether the `closed` channel has been
   closed, the `sync.Once` flag, and whether the transport is closed;
 - `Close`, `IsClosed`, `SendBinary` as state transformers, with Go
   `select` nondeterminism made explicit (a send case on a closed
   channel counts as ready and panics when chosen);
 - the outbound pump's queue draining as a step machine over
   enqueue/batch events;
 - the pumps' effect traces (deadlines, writes, logging, teardown);
 - the `defer` statements of `Upgrade` via a small statement semantics
   (Go runs deferred calls synchronously, LIFO, before returning to the
   caller; a `go` statement would spawn a concurrent worker).

Time is in nanoseconds (Go `time.Duration` units); payloads are byte
sequences modelled as `List Nat`.
-/

namespace GameServer

/-- One second in Go `time.Duration` units (nanoseconds). -/
def second : Nat := 1000000000

/-- `writeWait = 5 * time.Second` (connection.go line 14). -/
def writeWait : Nat := 5 * second

/-- `pongWait = 10 * time.Second` (connection.go line 15). -/
def pongWait : Nat := 10 * second

/-- `pingPeriod = (pongWait * 9) / 10` (connection.go line 16). -/
def pingPeriod : Nat := pongWait * 9 / 10

/-- `maxMessageSize = 8192` (connection.go line 17). -/
def maxMessageSize : Nat := 8192

/-- An opaque binary message: a byte sequence. -/
abbrev Msg := List Nat

/-- Capacity of the buffered `send` channel: `make(chan []byte, 256)`
(connection.go line 53). -/
def sendCapacity : Nat := 256

/-- State of a `Connection` value as far as the facade operations
observe it: the buffered contents of the `send` channel, whether
`close(c.send)` has run, whether `close(c.closed)` has run, the
`sync.Once` flag of `closeOnce`, and whether `c.conn.Close()` has run. -/
structure Connection where
  send : List Msg
  sendClosed : Bool
  closed : Bool
  onceDone : Bool
  connClosed : Bool
deriving DecidableEq

/-- The `Connection` built by a successful `Upgrade` (connection.go
lines 51-56): empty queue, all channels open, once not fired. -/
def freshConnection : Connection :=
  { send := [], sendClosed := false, closed := false
    onceDone := false, connClosed := false }

/-- The three teardown side effects performed inside `closeOnce.Do`
(connection.go lines 65-69): `close(c.closed)`, `close(c.send)`,
`c.conn.Close()`, in that order. -/
inductive CloseEffect
  | signalShutdown
  | closeQueue
  | closeTransport
deriving DecidableEq

/-- `Close` (connection.go lines 64-70): `closeOnce.Do` runs the body
only when the once has not fired yet; we return the new state together
with the list of side effects this particular call performed. -/
def closeWithEffects (c : Connection) : Connection × List CloseEffect :=
  if c.onceDone then (c, [])
  else
    ({ c with onceDone := true, closed := true
              sendClosed := true, connClosed := true },
     [CloseEffect.signalShutdown, CloseEffect.closeQueue,
      CloseEffect.closeTransport])

/-- `Close` as a plain state transformer. -/
def Connection.Close (c : Connection) : Connection :=
  (closeWithEffects c).1

/-- `IsClosed` (connection.go lines 72-79): a non-blocking `select` on
`<-c.closed` with a `default` branch; it returns `true` exactly when the
`closed` channel has been closed. -/
def Connection.IsClosed (c : Connection) : Bool := c.closed

/-- Result of a `SendBinary` call.  `panicked` models a Go runtime
panic from sending on a closed channel. -/
inductive SendResult
  | ok
  | connectionClosed
  | bufferFull
  | panicked
deriving DecidableEq

/-- Readiness of the `case c.send <- data` select case: a send on a
closed channel is ready (it proceeds by panicking), and a send on an
open buffered channel is ready when the buffer has free capacity. -/
def sendCaseReady (c : Connection) : Bool :=
  c.sendClosed || decide (c.send.length < sendCapacity)

/-- Executing the chosen `c.send <- data` case: panic when the channel
is closed, otherwise append to the buffer. -/
def sendCaseStep (c : Connection) (data : Msg) : Connection × SendResult :=
  if c.sendClosed then (c, SendResult.panicked)
  else ({ c with send := c.send ++ [data] }, SendResult.ok)

/-- `SendBinary` (connection.go lines 81-92): a `select` over
`c.send <- data`, `<-c.closed`, and a `default` branch that calls
`c.Close()` and returns `ErrorBufferFull`.  When both non-default cases
are ready Go picks one pseudo-randomly; the boolean `pickSend` makes
that scheduler choice explicit. -/
def Connection.SendBinary (c : Connection) (data : Msg) (pickSend : Bool) :
    Connection × SendResult :=
  if sendCaseReady c && c.closed then
    if pickSend then sendCaseStep c data
    else (c, SendResult.connectionClosed)
  else if sendCaseReady c then sendCaseStep c data
  else if c.closed then (c, SendResult.connectionClosed)
  else (Connection.Close c, SendResult.bufferFull)

/-- The state after `Close` has executed on a fresh connection. -/
def closedConnection : Connection := Connection.Close freshConnection

/-- Iterated `Close`: `closeNTrace c n` performs `n` sequential calls to
`Close` starting from `c` and concatenates the effects each call
performed. -/
def closeNTrace (c : Connection) : Nat → Connection × List CloseEffect
  | 0 => (c, [])
  | n + 1 =>
    let p := closeWithEffects c
    let q := closeNTrace p.1 n
    (q.1, p.2 ++ q.2)

/-! ### Outbound queue and the write pump's batching step (C4) -/

/-- Events acting on the outbound queue: a producer enqueue
(`c.send <- data`) or one iteration of the write pump's message branch
(connection.go lines 128-147): receive one message, then drain the
snapshot `len(c.send)` further messages into the same writer.  The
`snapshot` argument is the value `len(c.send)` had when the drain loop
started; receives always take from the front of the FIFO channel. -/
inductive QueueEvent
  | enq (m : Msg)
  | pumpBatch (snapshot : Nat)

/-- Observation of a run: the pending queue, the batches written to the
transport so far (each batch is one `NextWriter` transaction, written
front to back), and every message ever enqueued, in order. -/
structure PumpLog where
  queue : List Msg
  batches : List (List Msg)
  enqueued : List Msg
deriving DecidableEq

/-- Initial observation: nothing enqueued, nothing written. -/
def emptyPumpLog : PumpLog := { queue := [], batches := [], enqueued := [] }

/-- One event step.  An enqueue appends at the back of the channel; a
pump batch takes the front message and then `snapshot` more (or as many
as remain) from the front, in order, into a single batch. -/
def queueStep (s : PumpLog) : QueueEvent → PumpLog
  | QueueEvent.enq m =>
    { s with queue := s.queue ++ [m], enqueued := s.enqueued ++ [m] }
  | QueueEvent.pumpBatch k =>
    match s.queue with
    | [] => s
    | m :: rest =>
      { queue := rest.drop k
        batches := s.batches ++ [m :: rest.take k]
        enqueued := s.enqueued }

/-- Run a sequence of queue events from the initial state. -/
def runQueue (evs : List QueueEvent) : PumpLog :=
  evs.foldl queueStep emptyPumpLog

/-! ### Read pump: error classification, deadlines, teardown (C6, C7) -/

/-- `websocket.CloseNormalClosure` (RFC 6455 code 1000): an orderly
close frame. -/
def closeNormalClosure : Nat := 1000

/-- `websocket.CloseGoingAway` (code 1001). -/
def closeGoingAway : Nat := 1001

/-- `websocket.CloseAbnormalClosure` (code 1006). -/
def closeAbnormalClosure : Nat := 1006

/-- Errors `ReadMessage` can return: a websocket `*CloseError` carrying
a close code, or any other error (network failure, read deadline
exceeded, ...), which is not a `*CloseError`. -/
inductive ReadError
  | closeErr (code : Nat)
  | netErr (timeout : Bool)
deriving DecidableEq

/-- `websocket.IsUnexpectedCloseError(err, expectedCodes...)`: true iff
the error is a `*CloseError` whose code is not in the expected list;
any non-`CloseError` yields false. -/
def isUnexpectedCloseError (e : ReadError) (expectedCodes : List Nat) : Bool :=
  match e with
  | ReadError.closeErr code => !(expectedCodes.contains code)
  | ReadError.netErr _ => false

/-- The read pump's logging guard (connection.go line 107): the error is
passed to `log.Printf` iff
`IsUnexpectedCloseError(err, CloseGoingAway, CloseAbnormalClosure)`. -/
def readPumpLogsError (e : ReadError) : Bool :=
  isUnexpectedCloseError e [closeGoingAway, closeAbnormalClosure]

/-- Follows the spec's words, for comparison with `readPumpLogsError`
(spec section 4.2): an orderly close frame or a clean peer-initiated
disconnect (normal closure, going away, or the abnormal-closure class
the transport recognizes) is logged only at diagnostic level, and
"any other error (protocol violation, deadline exceeded, unexpected
close)" is surfaced as a warning-level failure. -/
def specReadPumpWarnsOn (e : ReadError) : Bool :=
  match e with
  | ReadError.closeErr code =>
    !(code = closeNormalClosure || code = closeGoingAway ||
      code = closeAbnormalClosure)
  | ReadError.netErr _ => true

/-- Effects the read pump performs against the transport and the
connection (connection.go lines 94-117). -/
inductive ReadEvent
  | setReadLimit (n : Nat)
  | setReadDeadline (d : Nat)
  | installPongHandler
  | handleMessage (m : Msg)
  | logError (e : ReadError)
  | callClose
deriving DecidableEq

/-- The trace of one complete `readPump` run that reads the data
messages `msgs` successfully (forwarding each to the non-nil handler)
and then hits the read error `e`: the setup (read limit, rolling read
deadline at `now + pongWait`, pong handler), the handled messages, the
conditional `log.Printf`, and the deferred `c.Close()` on the way
out. -/
def readPumpRun (now : Nat) (msgs : List Msg) (e : ReadError) :
    List ReadEvent :=
  [ReadEvent.setReadLimit maxMessageSize,
   ReadEvent.setReadDeadline (now + pongWait),
   ReadEvent.installPongHandler]
  ++ msgs.map ReadEvent.handleMessage
  ++ (if readPumpLogsError e then [ReadEvent.logError e] else [])
  ++ [ReadEvent.callClose]

/-- Transport state the read pump manipulates: the read size limit, the
absolute read deadline, and whether the pong handler is installed. -/
structure TransportState where
  readLimit : Nat
  readDeadline : Nat
  pongHandlerInstalled : Bool
deriving DecidableEq

/-- The pong handler installed by `readPump` (connection.go lines
99-102): on every pong frame it resets the read deadline to
`time.Now().Add(pongWait)`. -/
def pongHandler (now : Nat) (t : TransportState) : TransportState :=
  { t with readDeadline := now + pongWait }

/-- The setup `readPump` performs before its loop (connection.go lines
97-102): set the read limit, set the read deadline to `now + pongWait`,
install the pong handler. -/
def readPumpSetup (now : Nat) (t : TransportState) : TransportState :=
  { t with readLimit := maxMessageSize
           readDeadline := now + pongWait
           pongHandlerInstalled := true }

/-! ### Write pump: select loop and teardown (C8) -/

/-- Effects the write pump performs (connection.go lines 119-158). -/
inductive WpEvent
  | setWriteDeadline (d : Nat)
  | writeClose
  | writeBatch (msgs : List Msg)
  | writePing
  | stopTicker
  | closeTransport
deriving DecidableEq

/-- One wake-up of the write pump's `select`, tagged with its time:
a message received from `c.send` (with the messages the drain loop
coalesces behind it and whether the writer flushes without error), the
`send` channel found closed and empty (`ok == false`), a heartbeat tick
(with the ping write's success), or the shutdown signal. -/
inductive WpWake
  | recvMsg (m : Msg) (drained : List Msg) (writeOk : Bool)
  | queueClosed
  | tick (writeOk : Bool)
  | shutdownSignal
deriving DecidableEq

/-- The deferred teardown of `writePump` (connection.go lines 121-124):
stop the heartbeat ticker, close the transport. -/
def wpExitTrace : List WpEvent := [WpEvent.stopTicker, WpEvent.closeTransport]

/-- Run the write pump over a sequence of timed wake-ups.  Returns the
effect trace and whether the pump terminated; a pump that exhausts its
wake-ups without a terminating event is still blocked in `select`
(`false`).  Every `return` path flows through the deferred
`wpExitTrace`. -/
def writePumpRun : List (Nat × WpWake) → List WpEvent × Bool
  | [] => ([], false)
  | (t, w) :: rest =>
    match w with
    | WpWake.recvMsg m drained ok =>
      if ok then
        let r := writePumpRun rest
        (WpEvent.setWriteDeadline (t + writeWait) ::
           WpEvent.writeBatch (m :: drained) :: r.1, r.2)
      else
        (WpEvent.setWriteDeadline (t + writeWait) :: wpExitTrace, true)
    | WpWake.queueClosed =>
      (WpEvent.setWriteDeadline (t + writeWait) :: WpEvent.writeClose ::
         wpExitTrace, true)
    | WpWake.tick ok =>
      if ok then
        let r := writePumpRun rest
        (WpEvent.setWriteDeadline (t + writeWait) :: WpEvent.writePing ::
           r.1, r.2)
      else
        (WpEvent.setWriteDeadline (t + writeWait) :: WpEvent.writePing ::
           wpExitTrace, true)
    | WpWake.shutdownSignal => (wpExitTrace, true)

/-! ### Upgrade control flow: defer versus go (C1) -/

/-- The two pump functions started at upgrade time. -/
inductive PumpId
  | readPump
  | writePump
deriving DecidableEq

/-- The statements of interest at the end of a Go function body:
`defer f()` or `go f()`. -/
inductive GoStmt
  | deferCall (p : PumpId)
  | goCall (p : PumpId)
deriving DecidableEq

/-- Observable scheduling events of executing a function body:
running a pump synchronously to completion on the calling thread,
spawning a pump as a concurrent worker, and control returning to the
caller. -/
inductive ExecEvent
  | runToCompletion (p : PumpId)
  | spawnWorker (p : PumpId)
  | returnToCaller
deriving DecidableEq

/-- Go semantics of a function body made of `defer`/`go` statements:
`go f()` spawns a concurrent worker at its program point; deferred calls
run synchronously, in LIFO order, after the return value is evaluated
and before control returns to the caller. -/
def execFuncBody (body : List GoStmt) : List ExecEvent :=
  body.filterMap (fun s =>
    match s with
    | GoStmt.goCall p => some (ExecEvent.spawnWorker p)
    | GoStmt.deferCall _ => none)
  ++ (body.filterMap (fun s =>
      match s with
      | GoStmt.deferCall p => some (ExecEvent.runToCompletion p)
      | GoStmt.goCall _ => none)).reverse
  ++ [ExecEvent.returnToCaller]

/-- The pump-starting statements of `Upgrade` (connection.go lines
58-59): `defer c.readPump()` then `defer c.writePump()`. -/
def upgradePumpStmts : List GoStmt :=
  [GoStmt.deferCall PumpId.readPump, GoStmt.deferCall PumpId.writePump]

/-- The scheduling trace of a successful `Upgrade` call after the
`Connection` is constructed. -/
def upgradeExecTrace : List ExecEvent := execFuncBody upgradePumpStmts

/-! ### Upgrader origin check (C9) -/

/-- An incoming HTTP request, as far as an origin check can look at
it. -/
structure HttpRequest where
  origin : String
  host : String
deriving DecidableEq

/-- The upgrader's `CheckOrigin` (connection.go line 41):
`func(r *http.Request) bool { return true }`. -/
def checkOrigin (_ : HttpRequest) : Bool := true

/-! ### Facade operations as a step relation (C10) -/

/-- The operations that can act on a `Connection` after construction:
a `Close` call, a `SendBinary` call (with the scheduler's select
choice), and a pump exiting (the read pump's deferred `c.Close()`). -/
inductive ConnOp
  | closeOp
  | sendOp (data : Msg) (pick : Bool)
  | pumpExitOp
deriving DecidableEq

/-- Apply one operation to the connection state. -/
def applyOp (c : Connection) : ConnOp → Connection
  | ConnOp.closeOp => Connection.Close c
  | ConnOp.sendOp d p => (Connection.SendBinary c d p).1
  | ConnOp.pumpExitOp => Connection.Close c

/-- An open connection whose outbound queue is at capacity. -/
def fullConnection : Connection :=
  { send := List.replicate sendCapacity [0], sendClosed := false
    closed := false, onceDone := false, connClosed := false }

/-! ## Theorems -/

/-- Claim C1 (evidence of the code bug): `Upgrade` uses
`defer c.readPump()` / `defer c.writePump()`, so after constructing the
`Connection` it runs `writePump` to completion and then `readPump` to
completion synchronously on the calling thread before control returns
to the caller, and no pump is ever spawned as a concurrent worker.
The claim (and the spec) say both pumps are started as independent
concurrent workers and that `Upgrade` does not block waiting for them. -/
theorem upgrade_runs_pumps_synchronously :
    upgradeExecTrace =
      [ExecEvent.runToCompletion PumpId.writePump,
       ExecEvent.runToCompletion PumpId.readPump,
       ExecEvent.returnToCaller] ∧
    ExecEvent.spawnWorker PumpId.readPump ∉ upgradeExecTrace ∧
    ExecEvent.spawnWorker PumpId.writePump ∉ upgradeExecTrace := by
  decide

/-- Claim C2 (evidence of the code bug): after `Close` has executed,
the `send` channel is closed, so the `case c.send <- data` select case
in `SendBinary` is ready and panics when the runtime chooses it; the
call does not always return `ErrorConnectionClosed` as the claim
states.  The `IsClosed` half of the claim does hold. -/
theorem sendBinary_after_close_can_panic :
    (Connection.SendBinary closedConnection [42] true).2 =
      SendResult.panicked ∧
    closedConnection.IsClosed = true := by
  decide

/-- Claim C9: the upgrader's `CheckOrigin` accepts every incoming
request unconditionally — it returns `true` for every request, so no
origin validation happens before upgrading. -/
theorem checkOrigin_accepts_all :
    ∀ r : HttpRequest, checkOrigin r = true :=
  fun _ => rfl

/-- Claim C7: the read pump's setup sets the transport's read deadline
to `now + pongWait` and installs the pong handler, and the pong handler
resets the read deadline to `now + pongWait` at every
heartbeat-acknowledgement it observes. -/
theorem read_deadline_set_and_refreshed :
    ∀ (now : Nat) (t : TransportState),
      (readPumpSetup now t).readDeadline = now + pongWait ∧
      (readPumpSetup now t).pongHandlerInstalled = true ∧
      ∀ (now2 : Nat) (t2 : TransportState),
        (pongHandler now2 t2).readDeadline = now2 + pongWait :=
  fun _ _ => ⟨rfl, rfl, fun _ _ => rfl⟩

/-- Claim C6, counterexample: a read error that is not a websocket
close error — for example a read-deadline timeout — is, per the claim,
"any other error" and must be logged as a warning-level failure; but
`IsUnexpectedCloseError` returns false on any non-close error, so the
code does not log it at all. -/
theorem readPump_timeout_error_not_logged :
    readPumpLogsError (ReadError.netErr true) ≠
      specReadPumpWarnsOn (ReadError.netErr true) := by
  decide

/-- Claim C6, amended: on every read error the loop terminates and the
pump's deferred `c.Close()` runs on the way out; the error is logged
(via the single `log.Printf` call) exactly when it is a websocket close
error whose code is neither `CloseGoingAway` (1001) nor
`CloseAbnormalClosure` (1006) — so non-close errors (such as deadline
exceeded) are not logged, and an orderly close frame (code 1000) is
logged. -/
theorem readPump_error_classification_and_close :
    ∀ (now : Nat) (msgs : List Msg) (e : ReadError),
      (∃ pre : List ReadEvent,
        readPumpRun now msgs e = pre ++ [ReadEvent.callClose]) ∧
      (ReadEvent.logError e ∈ readPumpRun now msgs e ↔
        ∃ code, e = ReadError.closeErr code ∧
          code ≠ closeGoingAway ∧ code ≠ closeAbnormalClosure) := by
  intro now msgs e
  constructor
  · exact ⟨[ReadEvent.setReadLimit maxMessageSize,
            ReadEvent.setReadDeadline (now + pongWait),
            ReadEvent.installPongHandler]
           ++ msgs.map ReadEvent.handleMessage
           ++ (if readPumpLogsError e then [ReadEvent.logError e] else []),
           by simp [readPumpRun]⟩
  · cases e with
    | closeErr code =>
      constructor
      · intro hmem
        refine ⟨code, rfl, ?_, ?_⟩ <;>
        · intro hcode
          simp [readPumpRun, readPumpLogsError, isUnexpectedCloseError,
                hcode, closeGoingAway, closeAbnormalClosure] at hmem
      · rintro ⟨code2, heq, h1, h2⟩
        cases heq
        simp only [closeGoingAway, closeAbnormalClosure] at h1 h2
        have hlog : readPumpLogsError (ReadError.closeErr code) = true := by
          simp [readPumpLogsError, isUnexpectedCloseError,
                closeGoingAway, closeAbnormalClosure]
          omega
        simp [readPumpRun, hlog]
    | netErr b =>
      constructor
      · intro hmem
        simp [readPumpRun, readPumpLogsError, isUnexpectedCloseError] at hmem
      · rintro ⟨code2, heq, -, -⟩
        cases heq

/-- Iterating `Close` on an already-fired once is the identity and
performs no effects. -/
theorem closeNTrace_of_onceDone (n : Nat) :
    ∀ c : Connection, c.onceDone = true → closeNTrace c n = (c, []) := by
  induction n with
  | zero => intro c _; rfl
  | succ n ih =>
    intro c h
    simp [closeNTrace, closeWithEffects, h, ih c h]

/-- Claim C3: any number n of `Close` calls, n at least 1, starting
from a connection on which the once has not fired, performs the three
teardown side effects (signal shutdown, close the outbound queue, close
the transport) exactly once in total; and a `Close` call on a
connection whose once has fired is a no-op with no effects.  Each call
is a total function of the state — it returns without blocking or
panicking. -/
theorem close_teardown_exactly_once :
    (∀ (c : Connection) (n : Nat), c.onceDone = false → 1 ≤ n →
      (closeNTrace c n).2 =
        [CloseEffect.signalShutdown, CloseEffect.closeQueue,
         CloseEffect.closeTransport]) ∧
    (∀ c : Connection, c.onceDone = true →
      closeWithEffects c = (c, [])) := by
  constructor
  · intro c n h hn
    obtain ⟨m, rfl⟩ : ∃ m, n = m + 1 := ⟨n - 1, by omega⟩
    have h2 := closeNTrace_of_onceDone m
      { c with onceDone := true, closed := true
               sendClosed := true, connClosed := true } rfl
    simp [closeNTrace, closeWithEffects, h, h2]
  · intro c h
    simp [closeWithEffects, h]

/-- Witness for C3: three consecutive `Close` calls on a fresh
connection perform the teardown effects exactly once, and a `Close`
on an already-closed connection is a no-op. -/
theorem close_teardown_exactly_once_witness :
    (closeNTrace freshConnection 3).2 =
      [CloseEffect.signalShutdown, CloseEffect.closeQueue,
       CloseEffect.closeTransport] ∧
    closeWithEffects closedConnection = (closedConnection, []) :=
  ⟨close_teardown_exactly_once.1 freshConnection 3 (by decide) (by decide),
   close_teardown_exactly_once.2 closedConnection (by decide)⟩

/-- One queue event preserves the accounting invariant: what has been
written to the transport (flattened batches) followed by what is still
queued is exactly the sequence of enqueued messages, in order. -/
theorem queueStep_invariant (s : PumpLog) (ev : QueueEvent)
    (h : s.batches.flatten ++ s.queue = s.enqueued) :
    (queueStep s ev).batches.flatten ++ (queueStep s ev).queue =
      (queueStep s ev).enqueued := by
  cases ev with
  | enq m =>
    simp [queueStep, ← h, List.append_assoc]
  | pumpBatch k =>
    cases hq : s.queue with
    | nil => simpa [queueStep, hq] using h
    | cons m rest =>
      rw [hq] at h
      simp [queueStep, hq, ← h, List.flatten_append, List.append_assoc]

/-- Claim C4: over every interleaving of producer enqueues and write
pump batch iterations (each with an arbitrary drain snapshot), the
concatenation of the batches written to the transport followed by the
still-pending queue equals the full enqueued sequence — so messages
reach the transport in exactly the order enqueued, with no duplication
and no loss, and the opportunistic batching step introduces no
reordering. -/
theorem enqueue_fifo_no_loss_no_dup :
    ∀ evs : List QueueEvent,
      (runQueue evs).batches.flatten ++ (runQueue evs).queue =
        (runQueue evs).enqueued := by
  have main : ∀ (evs : List QueueEvent) (s : PumpLog),
      s.batches.flatten ++ s.queue = s.enqueued →
      (evs.foldl queueStep s).batches.flatten ++
        (evs.foldl queueStep s).queue = (evs.foldl queueStep s).enqueued := by
    intro evs
    induction evs with
    | nil => intro s h; exact h
    | cons ev rest ih =>
      intro s h
      exact ih (queueStep s ev) (queueStep_invariant s ev h)
  intro evs
  exact main evs emptyPumpLog rfl

/-- Claim C5: a `SendBinary` call on an open connection (shutdown not
signaled, once not fired) whose outbound queue has no free capacity
takes the `default` branch: it returns `ErrorBufferFull` and, as a side
effect of that same call, runs `Close`, so `IsClosed` on the resulting
state is true without any explicit `Close` by the caller. -/
theorem sendBinary_full_buffer_fatal :
    ∀ (c : Connection) (data : Msg) (pick : Bool),
      c.closed = false → c.sendClosed = false → c.onceDone = false →
      sendCapacity ≤ c.send.length →
      (Connection.SendBinary c data pick).2 = SendResult.bufferFull ∧
      ((Connection.SendBinary c data pick).1).IsClosed = true := by
  intro c data pick hclosed hsend honce hfull
  have hready : sendCaseReady c = false := by
    simp [sendCaseReady, hsend]
    omega
  simp [Connection.SendBinary, hready, hclosed, Connection.Close,
        closeWithEffects, honce, Connection.IsClosed]

/-- Witness for C5: a connection with 256 queued messages fails a
further send with `ErrorBufferFull` and is closed afterwards. -/
theorem sendBinary_full_buffer_fatal_witness :
    (Connection.SendBinary fullConnection [7] false).2 =
      SendResult.bufferFull ∧
    ((Connection.SendBinary fullConnection [7] false).1).IsClosed = true :=
  sendBinary_full_buffer_fatal fullConnection [7] false rfl rfl rfl
    (by simp [fullConnection, List.length_replicate])

/-- Claim C8: when the write pump's select observes that the `send`
channel has been closed with no further messages, the iteration sets
the write deadline, writes a close frame, and the pump terminates; and
every terminating run ends with the deferred teardown — stop the
heartbeat ticker, then close the transport. -/
theorem writePump_close_frame_and_teardown :
    (∀ (t : Nat) (rest : List (Nat × WpWake)),
      writePumpRun ((t, WpWake.queueClosed) :: rest) =
        ([WpEvent.setWriteDeadline (t + writeWait), WpEvent.writeClose,
          WpEvent.stopTicker, WpEvent.closeTransport], true)) ∧
    (∀ wakes : List (Nat × WpWake), (writePumpRun wakes).2 = true →
      ∃ pre : List WpEvent,
        (writePumpRun wakes).1 = pre ++ wpExitTrace) := by
  constructor
  · intro t rest; rfl
  · intro wakes
    induction wakes with
    | nil => intro h; simp [writePumpRun] at h
    | cons tw rest ih =>
      obtain ⟨t, w⟩ := tw
      cases w with
      | recvMsg m drained ok =>
        cases ok with
        | false =>
          intro _
          exact ⟨[WpEvent.setWriteDeadline (t + writeWait)], rfl⟩
        | true =>
          intro h
          have h2 : (writePumpRun rest).2 = true := by
            simpa [writePumpRun] using h
          obtain ⟨pre, hp⟩ := ih h2
          exact ⟨WpEvent.setWriteDeadline (t + writeWait) ::
                   WpEvent.writeBatch (m :: drained) :: pre,
                 by simp [writePumpRun, hp]⟩
      | queueClosed =>
        intro _
        exact ⟨[WpEvent.setWriteDeadline (t + writeWait),
                WpEvent.writeClose], rfl⟩
      | tick ok =>
        cases ok with
        | false =>
          intro _
          exact ⟨[WpEvent.setWriteDeadline (t + writeWait),
                  WpEvent.writePing], rfl⟩
        | true =>
          intro h
          have h2 : (writePumpRun rest).2 = true := by
            simpa [writePumpRun] using h
          obtain ⟨pre, hp⟩ := ih h2
          exact ⟨WpEvent.setWriteDeadline (t + writeWait) ::
                   WpEvent.writePing :: pre,
                 by simp [writePumpRun, hp]⟩
      | shutdownSignal =>
        intro _
        exact ⟨[], rfl⟩

/-- Witness for C8: a pump woken by the shutdown signal terminates and
its trace ends with the deferred ticker-stop and transport-close. -/
theorem writePump_close_frame_and_teardown_witness :
    ∃ pre : List WpEvent,
      (writePumpRun [(0, WpWake.shutdownSignal)]).1 = pre ++ wpExitTrace :=
  writePump_close_frame_and_teardown.2 [(0, WpWake.shutdownSignal)]
    (by decide)

/-- `Close` never clears the shutdown flag. -/
theorem close_preserves_closed (c : Connection) (h : c.closed = true) :
    (Connection.Close c).closed = true := by
  unfold Connection.Close closeWithEffects
  split <;> simp [h]

/-- `SendBinary` never clears the shutdown flag, whatever the select
choice. -/
theorem sendBinary_preserves_closed (c : Connection) (d : Msg) (p : Bool)
    (h : c.closed = true) :
    ((Connection.SendBinary c d p).1).closed = true := by
  simp only [Connection.SendBinary, sendCaseStep, Connection.Close,
             closeWithEffects]
  split_ifs <;> simp_all

/-- Claim C10: `IsClosed` is monotone — once it returns true, it
returns true after every further sequence of facade operations (Close
calls, SendBinary calls with any scheduler choice, pump exits); no
operation transitions the connection from closed back to open. -/
theorem isClosed_monotone :
    ∀ (c : Connection) (ops : List ConnOp),
      c.IsClosed = true → ((ops.foldl applyOp c).IsClosed) = true := by
  have step : ∀ (c : Connection) (op : ConnOp), c.closed = true →
      (applyOp c op).closed = true := by
    intro c op h
    cases op with
    | closeOp => exact close_preserves_closed c h
    | sendOp d p => exact sendBinary_preserves_closed c d p h
    | pumpExitOp => exact close_preserves_closed c h
  intro c ops
  induction ops generalizing c with
  | nil => intro h; exact h
  | cons op rest ih =>
    intro h
    exact ih (applyOp c op) (step c op h)

/-- Witness for C10: a closed connection stays closed across a send, a
redundant close, and a pump exit. -/
theorem isClosed_monotone_witness :
    (([ConnOp.sendOp [1] true, ConnOp.closeOp,
       ConnOp.pumpExitOp].foldl applyOp closedConnection).IsClosed) = true :=
  isClosed_monotone closedConnection
    [ConnOp.sendOp [1] true, ConnOp.closeOp, ConnOp.pumpExitOp] (by decide)

end GameServer
